import Mathlib

/-
Verification of the page-publishing pipeline of `src/src/publishing/pagePublisher.ts`
(class `PagePublisher`): `renderPage`, `renderAndUpload` and `publish`.

Modelling conventions:
* External collaborators (locale service, site-settings service, page service,
  media service, HTML renderer, minifier, blob storage, `JSON.parse`) are
  oracles collected in an `Env` record; fallible calls return `Except Err`.
* Side effects (blob uploads, style artifacts, search-index appends, logger
  calls, console output) are recorded as an explicit list of `Event`s.
* The JavaScript event loop is single-threaded and cooperative; every
  scheduled page task runs to completion independently of its siblings, so
  the model runs each task's full trace at its scheduling point.  Only the
  relative order of events from different tasks is scheduler-dependent in
  the source; no theorem below depends on that order.
* Optional string-valued fields (`string | undefined` / `string | null`) are
  modelled as `Option String`, and truthiness tests on them as presence
  tests (locale codes, hostnames and storage keys are assumed non-empty).
  For plain `string` operands of `||` the JavaScript empty-string test is
  kept as written.
-/

namespace PagePub

/-- Error payloads (JavaScript `error.message`). -/
abbrev Err := String

/-- Parsed JSON-LD payload; its structure is irrelevant here, only presence. -/
abbrev LData := String

/-- `settings.site` fields used by the publisher (`ISiteService.getSiteSettings`). -/
structure SiteConfig where
  author : Option String := none
  title : Option String := none
  description : Option String := none
  keywords : Option String := none
  hostname : Option String := none
  faviconSourceKey : Option String := none
deriving DecidableEq

/-- The settings object; `settings?.site` may be absent. -/
structure Settings where
  site : Option SiteConfig := none
deriving DecidableEq

def Settings.siteAuthor (s : Settings) : Option String := s.site.bind SiteConfig.author

def Settings.siteTitle (s : Settings) : Option String := s.site.bind SiteConfig.title

def Settings.siteDescription (s : Settings) : Option String := s.site.bind SiteConfig.description

def Settings.siteKeywords (s : Settings) : Option String := s.site.bind SiteConfig.keywords

def Settings.hostname (s : Settings) : Option String := s.site.bind SiteConfig.hostname

def Settings.faviconKey (s : Settings) : Option String := s.site.bind SiteConfig.faviconSourceKey

/-- A locale as returned by `ILocaleService.getLocales`. -/
structure Locale where
  code : String
deriving DecidableEq

/-- A media record as returned by `IMediaService.getMediaByKey`. -/
structure Media where
  permalink : String
deriving DecidableEq

/-- The fields of `PageContract` the publisher reads. -/
structure PageContract where
  key : String
  permalink : String
  title : String
  description : Option String := none
  keywords : Option String := none
  jsonLd : Option String := none
  socialShareData : Option String := none
deriving DecidableEq

/-- The `openGraph` block of the render context. -/
structure OpenGraph where
  ogType : String
  title : Option String
  description : Option String
  siteName : Option String
deriving DecidableEq

/-- The `bindingContext` block of the render context (style manager omitted;
it is a fresh per-render handle whose contents are produced by the renderer). -/
structure BindingContext where
  navigationPath : String
  locale : Option String
  contentValue : String
deriving DecidableEq

/-- The render context (`HtmlPage`) built by `renderAndUpload`. -/
structure HtmlPage where
  title : String
  description : Option String
  keywords : Option String
  permalink : String
  url : String
  siteHostName : Option String
  content : String
  template : String
  styleReferences : List String
  author : Option String
  socialShareData : Option String
  openGraph : OpenGraph
  bindingContext : BindingContext
  linkedData : Option LData
  faviconPermalink : Option String
deriving DecidableEq

/-- Observable side effects of a publish run. -/
inductive Event where
  | upload (path : String) (content : String) (contentType : String)
  | globalStyle (sheet : String)
  | localStyle (permalink : String)
  | indexAppend (permalink : String) (title : String) (description : Option String)
      (content : String)
  | traceEvent (message : String)
  | traceError (error : String) (message : String)
  | consoleLog (message : String)
deriving DecidableEq

/-- The external collaborators of `PagePublisher`, as oracles. -/
structure Env where
  getLocales : Except Err (List Locale)
  getDefaultLocale : Except Err String
  getStyleSheet : Except Err String
  getSiteSettings : Except Err Settings
  search : String → Option String → Except Err (List PageContract)
  getPageContent : String → Option String → Except Err String
  renderHtml : HtmlPage → Except Err String
  minify : String → Except Err String
  getMediaByKey : String → Except Err (Option Media)
  uploadBlob : String → String → String → Except Err Unit
  jsonParse : String → Option LData

/-- The imported `./page.html` template; its contents are irrelevant here. -/
def templateHtml : String := "page.html"

/-- `locale ? "/" + locale : ""` — the locale path segment of `renderAndUpload`. -/
def localePrefixOf : Option String → String
  | some l => "/" ++ l
  | none => ""

/-- JavaScript `a || b` for two optional strings (`page.description || siteDescription`). -/
def jsOrOpt (a b : Option String) : Option String :=
  match a with
  | some x => some x
  | none => b

/-- JavaScript `a || b` for a plain string and an optional one (`page.title || siteTitle`). -/
def jsOrStr (a : String) (b : Option String) : Option String :=
  if a = "" then b else some a

/-- `permalink.endsWith("/")`: the string's last character is a slash.  (For a
one-character suffix this is exactly `String.endsWith`; the library function is
avoided because its byte-level loop does not reduce in the kernel.) -/
def hasTrailingSlash (s : String) : Bool := s.data.getLast? = some '/'

/-- The upload-path computation at the end of `renderAndUpload`: ensure a
trailing slash, then append `index.html`. -/
def uploadPathOf (pagePermalink : String) : String :=
  (if hasTrailingSlash pagePermalink then pagePermalink else pagePermalink ++ "/") ++ "index.html"

/-- The `page.jsonLd` block of `renderAndUpload`: attempt `JSON.parse`; on
failure `console.log` and continue with no linked data. -/
def parseLinkedData (env : Env) (page : PageContract) : List Event × Option LData :=
  match page.jsonLd with
  | some s =>
    match env.jsonParse s with
    | some d => ([], some d)
    | none => ([Event.consoleLog "Unable to parse page linked data: "], none)
  | none => ([], none)

/-- The `faviconSourceKey` block of `renderAndUpload`: attempt the media
lookup; on failure log `"Could not retrieve favicon."` and continue. -/
def faviconStep (env : Env) (settings : Settings) : List Event × Option String :=
  match settings.faviconKey with
  | some key =>
    match env.getMediaByKey key with
    | .error e => ([Event.traceError e "Could not retrieve favicon."], none)
    | .ok (some media) => ([], some media.permalink)
    | .ok none => ([], none)
  | none => ([], none)

/-- The `HtmlPage` object literal of `renderAndUpload` (lines 77-113), with the
conditional `linkedData` / `faviconPermalink` assignments folded in as the
values those blocks computed. -/
def mkHtmlPage (settings : Settings) (page : PageContract) (locale : Option String)
    (pageContent : String) (linkedData : Option LData)
    (faviconPermalink : Option String) : HtmlPage :=
  { title := page.title ++ " - " ++ (settings.siteTitle.getD "")
    description := jsOrOpt page.description settings.siteDescription
    keywords := jsOrOpt page.keywords settings.siteKeywords
    permalink := localePrefixOf locale ++ page.permalink
    url :=
      match settings.hostname with
      | some h => "https://" ++ h ++ (localePrefixOf locale ++ page.permalink)
      | none => localePrefixOf locale ++ page.permalink
    siteHostName := settings.hostname
    content := pageContent
    template := templateHtml
    styleReferences :=
      ["/styles/styles.css",
       if localePrefixOf locale ++ page.permalink = "/" then "/styles.css"
       else (localePrefixOf locale ++ page.permalink) ++ "/styles.css"]
    author := settings.siteAuthor
    socialShareData := page.socialShareData
    openGraph :=
      { ogType := if page.permalink = "/" then "website" else "article"
        title := jsOrStr page.title settings.siteTitle
        description := jsOrOpt page.description settings.siteDescription
        siteName := settings.siteTitle }
    bindingContext :=
      { navigationPath := localePrefixOf locale ++ page.permalink
        locale := locale
        contentValue := pageContent }
    linkedData := linkedData
    faviconPermalink := faviconPermalink }

/-- `PagePublisher.renderPage`: trace, render, minify (the minifier is invoked
with the source's fixed option record, which the oracle absorbs); any failure
is wrapped as `"Unable to reneder page " ++ title ++ ": " ++ cause` — the
string is spelled exactly as in the source, including its misspelling. -/
def renderPage (env : Env) (page : HtmlPage) : List Event × Except Err String :=
  match env.renderHtml page with
  | .error e =>
    ([Event.traceEvent ("Publishing page " ++ page.title ++ "...")],
     .error ("Unable to reneder page " ++ page.title ++ ": " ++ e))
  | .ok htmlContent =>
    match env.minify htmlContent with
    | .error e =>
      ([Event.traceEvent ("Publishing page " ++ page.title ++ "...")],
       .error ("Unable to reneder page " ++ page.title ++ ": " ++ e))
    | .ok minified =>
      ([Event.traceEvent ("Publishing page " ++ page.title ++ "...")], .ok minified)

/-- The render context a task builds after its content fetch succeeded. -/
def builtPage (env : Env) (settings : Settings) (page : PageContract)
    (locale : Option String) (pageContent : String) : HtmlPage :=
  mkHtmlPage settings page locale pageContent
    (parseLinkedData env page).2 (faviconStep env settings).2

/-- `PagePublisher.renderAndUpload`: fetch content, build the render context,
render, build the local style artifact, append to the search index, upload
`index.html`.  The returned `Except` is the task's promise outcome; the event
list is everything the task did before settling. -/
def renderAndUpload (env : Env) (settings : Settings) (page : PageContract)
    (locale : Option String) : List Event × Except Err Unit :=
  match env.getPageContent page.key locale with
  | .error e => ([], .error e)
  | .ok pageContent =>
    match (renderPage env (builtPage env settings page locale pageContent)).2 with
    | .error e =>
      ((parseLinkedData env page).1 ++ (faviconStep env settings).1 ++
         (renderPage env (builtPage env settings page locale pageContent)).1,
       .error e)
    | .ok htmlContent =>
      match env.uploadBlob (uploadPathOf (localePrefixOf locale ++ page.permalink))
          htmlContent "text/html" with
      | .ok _ =>
        ((parseLinkedData env page).1 ++ (faviconStep env settings).1 ++
           (renderPage env (builtPage env settings page locale pageContent)).1 ++
          [Event.localStyle (localePrefixOf locale ++ page.permalink),
           Event.indexAppend (localePrefixOf locale ++ page.permalink)
             (builtPage env settings page locale pageContent).title
             (builtPage env settings page locale pageContent).description htmlContent,
           Event.upload (uploadPathOf (localePrefixOf locale ++ page.permalink))
             htmlContent "text/html"],
         .ok ())
      | .error e =>
        ((parseLinkedData env page).1 ++ (faviconStep env settings).1 ++
           (renderPage env (builtPage env settings page locale pageContent)).1 ++
          [Event.localStyle (localePrefixOf locale ++ page.permalink),
           Event.indexAppend (localePrefixOf locale ++ page.permalink)
             (builtPage env settings page locale pageContent).title
             (builtPage env settings page locale pageContent).description htmlContent],
         .error e)

/-- Accumulated state of one publish run while tasks are being scheduled:
the event trace so far, the `SitemapBuilder` accumulator, the scheduled
`(page, localeCode)` jobs (the promises pushed into `results`), and each
task's promise outcome in schedule order. -/
structure BatchState where
  events : List Event
  sitemap : List String
  jobs : List (PageContract × Option String)
  outcomes : List (Except Err Unit)

/-- `sitemapBuilder.appendPermalink(`${localeCode || ""}${page.permalink}`)`. -/
def sitemapPermalinkOf (localeCode : Option String) (page : PageContract) : String :=
  localeCode.getD "" ++ page.permalink

/-- The inner per-page loop of `publish`: schedule `renderAndUpload` for each
page and append its permalink to the sitemap accumulator.  Each task's full
trace is recorded at its scheduling point (see the module comment). -/
def runPages (env : Env) (settings : Settings) (localeCode : Option String) :
    List PageContract → BatchState
  | [] => ⟨[], [], [], []⟩
  | page :: rest =>
    ⟨(renderAndUpload env settings page localeCode).1 ++
       (runPages env settings localeCode rest).events,
     sitemapPermalinkOf localeCode page :: (runPages env settings localeCode rest).sitemap,
     (page, localeCode) :: (runPages env settings localeCode rest).jobs,
     (renderAndUpload env settings page localeCode).2 ::
       (runPages env settings localeCode rest).outcomes⟩

/-- `locale.code === defaultLocale ? null : locale.code`. -/
def localeCodeOf (defaultLocale : String) (locale : Locale) : Option String :=
  if locale.code = defaultLocale then none else some locale.code

/-- The per-locale loop of `publish` when localization is enabled.  A failing
`pageService.search` aborts the loop (the `await` raises into the catch),
discarding nothing already scheduled; its error is returned separately. -/
def runLocales (env : Env) (settings : Settings) (defaultLocale : String) :
    List Locale → BatchState × Option Err
  | [] => (⟨[], [], [], []⟩, none)
  | locale :: rest =>
    match env.search "" (localeCodeOf defaultLocale locale) with
    | .error e => (⟨[], [], [], []⟩, some e)
    | .ok pages =>
      (⟨(runPages env settings (localeCodeOf defaultLocale locale) pages).events ++
          (runLocales env settings defaultLocale rest).1.events,
        (runPages env settings (localeCodeOf defaultLocale locale) pages).sitemap ++
          (runLocales env settings defaultLocale rest).1.sitemap,
        (runPages env settings (localeCodeOf defaultLocale locale) pages).jobs ++
          (runLocales env settings defaultLocale rest).1.jobs,
        (runPages env settings (localeCodeOf defaultLocale locale) pages).outcomes ++
          (runLocales env settings defaultLocale rest).1.outcomes⟩,
       (runLocales env settings defaultLocale rest).2)

/-- `await Promise.all(results)` rejects with the first rejection among the
task outcomes; `none` means all fulfilled.  (In the source the rejection that
wins is the first to settle; which one that is does not matter below, only
whether some task rejected.) -/
def firstErr : List (Except Err Unit) → Option Err
  | [] => none
  | .error e :: _ => some e
  | .ok _ :: rest => firstErr rest

/-- Modelled from the spec: `SitemapBuilder.buildSitemap` (an external
`@paperbits/common` collaborator, not part of this repository's sources):
serializes the accumulated permalinks, each qualified by the configured
hostname, into a urlset XML document in accumulation order. -/
def buildSitemap (hostname : Option String) (permalinks : List String) : String :=
  "<urlset>" ++
    String.join (permalinks.map
      (fun p => "<url><loc>https://" ++ hostname.getD "" ++ p ++ "</loc></url>")) ++
  "</urlset>"

/-- The observable result of one `publish()` call: the event trace, the final
sitemap accumulator, the scheduled jobs, and the promise outcome of `publish`
itself (`error` means `publish` rejected to its caller). -/
structure RunReport where
  events : List Event
  sitemap : List String
  jobs : List (PageContract × Option String)
  outcome : Except Err Unit

/-- The scheduling part of the `try` block: either the localized double loop
or the single unlocalized loop (`localizationEnabled = locales.length > 0`). -/
def batchOf (env : Env) (settings : Settings) (locales : List Locale)
    (defaultLocale : String) : BatchState × Option Err :=
  if locales.length > 0 then
    runLocales env settings defaultLocale locales
  else
    match env.search "" none with
    | .error e => (⟨[], [], [], []⟩, some e)
    | .ok pages => (runPages env settings none pages, none)

/-- The tail of the `try` block plus the `catch`: if the loop aborted or any
task rejected, `Promise.all` raises and the catch logs
`traceError(error, "Page publisher")`; otherwise the sitemap is serialized
and uploaded (an upload failure is also caught and logged). -/
def finishBatch (env : Env) (settings : Settings) (b : BatchState × Option Err) : RunReport :=
  match b.2 with
  | some e =>
    ⟨b.1.events ++ [Event.traceError e "Page publisher"], b.1.sitemap, b.1.jobs, .ok ()⟩
  | none =>
    match firstErr b.1.outcomes with
    | some e =>
      ⟨b.1.events ++ [Event.traceError e "Page publisher"], b.1.sitemap, b.1.jobs, .ok ()⟩
    | none =>
      match env.uploadBlob "sitemap.xml" (buildSitemap settings.hostname b.1.sitemap)
          "text/xml" with
      | .ok _ =>
        ⟨b.1.events ++
           [Event.upload "sitemap.xml" (buildSitemap settings.hostname b.1.sitemap)
             "text/xml"],
         b.1.sitemap, b.1.jobs, .ok ()⟩
      | .error e =>
        ⟨b.1.events ++ [Event.traceError e "Page publisher"], b.1.sitemap, b.1.jobs, .ok ()⟩

/-- The whole `try { ... } catch (error) { logger.traceError(error, "Page publisher") }`
block of `publish`: a failing settings fetch is caught immediately; otherwise
schedule, join, and finalize.  Its promise always fulfills. -/
def publishTryBody (env : Env) (locales : List Locale) (defaultLocale : String) : RunReport :=
  match env.getSiteSettings with
  | .error e => ⟨[Event.traceError e "Page publisher"], [], [], .ok ()⟩
  | .ok settings => finishBatch env settings (batchOf env settings locales defaultLocale)

/-- `PagePublisher.publish`: the locale list, default locale and global style
sheet are awaited before the `try` block, so their failures reject the
promise `publish` returns; everything afterwards is inside the `try`. -/
def publish (env : Env) : RunReport :=
  match env.getLocales with
  | .error e => ⟨[], [], [], .error e⟩
  | .ok locales =>
    match env.getDefaultLocale with
    | .error e => ⟨[], [], [], .error e⟩
    | .ok defaultLocale =>
      match env.getStyleSheet with
      | .error e => ⟨[], [], [], .error e⟩
      | .ok sheet =>
        ⟨Event.globalStyle sheet :: (publishTryBody env locales defaultLocale).events,
         (publishTryBody env locales defaultLocale).sitemap,
         (publishTryBody env locales defaultLocale).jobs,
         (publishTryBody env locales defaultLocale).outcome⟩

/-- The search-index accumulator recovered from an event trace: the permalinks
passed to `indexer.appendPage`, in append order. -/
def indexedPermalinks (events : List Event) : List String :=
  events.filterMap fun e =>
    match e with
    | .indexAppend p _ _ _ => some p
    | _ => none

/-- Whether a render succeeded for a given page and locale: the content fetch
and the render-plus-minify step both returned `ok`.  This is the condition
under which `renderAndUpload` reaches `indexer.appendPage`. -/
def renderedHtml (env : Env) (settings : Settings) (page : PageContract)
    (locale : Option String) : Except Err String :=
  match env.getPageContent page.key locale with
  | .error e => .error e
  | .ok pageContent => (renderPage env (builtPage env settings page locale pageContent)).2

/-! Concrete environments used to evaluate the model on explicit inputs. -/

/-- A fully populated site configuration. -/
def siteCfg : SiteConfig :=
  { author := some "A", title := some "MySite", description := some "D",
    keywords := some "K", hostname := some "example.com", faviconSourceKey := none }

/-- Settings carrying `siteCfg`. -/
def okSettings : Settings := { site := some siteCfg }

/-- A page at permalink `/a`. -/
def pageA : PageContract := { key := "pa", permalink := "/a", title := "A" }

/-- A page at permalink `/b`. -/
def pageB : PageContract := { key := "pb", permalink := "/b", title := "B" }

/-- A benign environment: no locales, two pages, every collaborator succeeds. -/
def baseEnv : Env :=
  { getLocales := .ok []
    getDefaultLocale := .ok "en"
    getStyleSheet := .ok "G"
    getSiteSettings := .ok okSettings
    search := fun _ _ => .ok [pageA, pageB]
    getPageContent := fun k _ => .ok ("content-" ++ k)
    renderHtml := fun hp => .ok ("<html>" ++ hp.permalink ++ "</html>")
    minify := fun s => .ok s
    getMediaByKey := fun _ => .ok none
    uploadBlob := fun _ _ _ => .ok ()
    jsonParse := fun _ => none }

/-- Like `baseEnv`, but the content fetch for `pageA` rejects. -/
def envTwoPages : Env :=
  { baseEnv with
    getPageContent := fun k _ => if k = "pa" then .error "no content" else .ok "c" }

/-- Like `baseEnv`, but the locale service is down. -/
def envLocalesDown : Env :=
  { baseEnv with getLocales := .error "locale service down" }

/-- Like `baseEnv`, but the HTML renderer always fails with `boom`. -/
def envRenderFail : Env :=
  { baseEnv with renderHtml := fun _ => .error "boom" }

/-- The home page (permalink `/`). -/
def pageHome : PageContract := { key := "ph", permalink := "/", title := "Home" }

/-- A page whose `jsonLd` string is not valid JSON. -/
def page8 : PageContract :=
  { key := "p8", permalink := "/p8", title := "P8", jsonLd := some "not json" }

/-- Settings whose site block has no hostname. -/
def noHostSettings : Settings := { site := some { siteCfg with hostname := none } }

/-- Like `baseEnv`, but with locales `en` (default) and `fr`. -/
def envFr : Env :=
  { baseEnv with getLocales := .ok [{ code := "en" }, { code := "fr" }] }

/-- The render context of the home page under `okSettings`; its `title` is
`"Home - MySite"`. -/
def hp9 : HtmlPage := mkHtmlPage okSettings pageHome none "c" none none

/-! Helper lemmas about the orchestration. -/

theorem renderPage_events (env : Env) (hp : HtmlPage) :
    (renderPage env hp).1 =
      [Event.traceEvent ("Publishing page " ++ hp.title ++ "...")] := by
  rcases hr : env.renderHtml hp with e | s
  · simp [renderPage, hr]
  · rcases hm : env.minify s with e2 | m <;> simp [renderPage, hr, hm]

theorem indexedPermalinks_append (xs ys : List Event) :
    indexedPermalinks (xs ++ ys) = indexedPermalinks xs ++ indexedPermalinks ys := by
  simp [indexedPermalinks]

theorem indexedPermalinks_parseLinkedData (env : Env) (page : PageContract) :
    indexedPermalinks (parseLinkedData env page).1 = [] := by
  rcases hj : page.jsonLd with _ | s
  · simp [parseLinkedData, hj, indexedPermalinks]
  · rcases hp : env.jsonParse s with _ | d <;>
      simp [parseLinkedData, hj, hp, indexedPermalinks]

theorem indexedPermalinks_faviconStep (env : Env) (settings : Settings) :
    indexedPermalinks (faviconStep env settings).1 = [] := by
  rcases hk : settings.faviconKey with _ | key
  · simp [faviconStep, hk, indexedPermalinks]
  · rcases hm : env.getMediaByKey key with e | m
    · simp [faviconStep, hk, hm, indexedPermalinks]
    · rcases m with _ | media <;> simp [faviconStep, hk, hm, indexedPermalinks]

theorem finishBatch_outcome (env : Env) (settings : Settings) (b : BatchState × Option Err) :
    (finishBatch env settings b).outcome = .ok () := by
  rcases b with ⟨bs, err⟩
  rcases err with _ | e
  · rcases ho : firstErr bs.outcomes with _ | e
    · rcases hu : env.uploadBlob "sitemap.xml" (buildSitemap settings.hostname bs.sitemap)
          "text/xml" with e2 | u <;> simp [finishBatch, ho, hu]
    · simp [finishBatch, ho]
  · simp [finishBatch]

theorem finishBatch_jobs (env : Env) (settings : Settings) (b : BatchState × Option Err) :
    (finishBatch env settings b).jobs = b.1.jobs := by
  rcases b with ⟨bs, err⟩
  rcases err with _ | e
  · rcases ho : firstErr bs.outcomes with _ | e
    · rcases hu : env.uploadBlob "sitemap.xml" (buildSitemap settings.hostname bs.sitemap)
          "text/xml" with e2 | u <;> simp [finishBatch, ho, hu]
    · simp [finishBatch, ho]
  · simp [finishBatch]

theorem finishBatch_sitemap (env : Env) (settings : Settings) (b : BatchState × Option Err) :
    (finishBatch env settings b).sitemap = b.1.sitemap := by
  rcases b with ⟨bs, err⟩
  rcases err with _ | e
  · rcases ho : firstErr bs.outcomes with _ | e
    · rcases hu : env.uploadBlob "sitemap.xml" (buildSitemap settings.hostname bs.sitemap)
          "text/xml" with e2 | u <;> simp [finishBatch, ho, hu]
    · simp [finishBatch, ho]
  · simp [finishBatch]

theorem publishTryBody_outcome (env : Env) (locales : List Locale) (d : String) :
    (publishTryBody env locales d).outcome = .ok () := by
  rcases hs : env.getSiteSettings with e | settings
  · simp [publishTryBody, hs]
  · simp [publishTryBody, hs, finishBatch_outcome]

theorem runPages_jobs (env : Env) (settings : Settings) (lc : Option String)
    (pages : List PageContract) :
    (runPages env settings lc pages).jobs = pages.map (fun p => (p, lc)) := by
  induction pages with
  | nil => rfl
  | cons p rest ih => simp [runPages, ih]

theorem runPages_sitemap (env : Env) (settings : Settings) (lc : Option String)
    (pages : List PageContract) :
    (runPages env settings lc pages).sitemap = pages.map (sitemapPermalinkOf lc) := by
  induction pages with
  | nil => rfl
  | cons p rest ih => simp [runPages, ih]

theorem runPages_indexed (env : Env) (settings : Settings) (lc : Option String)
    (pages : List PageContract) :
    indexedPermalinks (runPages env settings lc pages).events =
      pages.flatMap (fun p => indexedPermalinks (renderAndUpload env settings p lc).1) := by
  induction pages with
  | nil => rfl
  | cons p rest ih => simp [runPages, indexedPermalinks_append, ih]

theorem runLocales_jobs (env : Env) (settings : Settings) (d : String)
    (pagesOf : Locale → List PageContract) (ls : List Locale)
    (h : ∀ l ∈ ls, env.search "" (localeCodeOf d l) = .ok (pagesOf l)) :
    (runLocales env settings d ls).1.jobs =
      ls.flatMap (fun l => (pagesOf l).map (fun p => (p, localeCodeOf d l))) := by
  induction ls with
  | nil => rfl
  | cons l rest ih =>
    have hl := h l (List.mem_cons_self l rest)
    have hr := ih (fun x hx => h x (List.mem_cons_of_mem l hx))
    simp [runLocales, hl, runPages_jobs, hr]

/-! The claims. -/

/-- C4: for every page, the upload path is the locale-qualified permalink
ensured to end in `/` and then suffixed with `index.html`: if the permalink
already ends in `/` the path is exactly `permalink ++ "index.html"` (no double
slash), otherwise exactly one `/` is inserted before `index.html`. -/
theorem c4_upload_path (page : PageContract) (locale : Option String) :
    (hasTrailingSlash (localePrefixOf locale ++ page.permalink) = true →
      uploadPathOf (localePrefixOf locale ++ page.permalink) =
        (localePrefixOf locale ++ page.permalink) ++ "index.html") ∧
    (hasTrailingSlash (localePrefixOf locale ++ page.permalink) = false →
      uploadPathOf (localePrefixOf locale ++ page.permalink) =
        ((localePrefixOf locale ++ page.permalink) ++ "/") ++ "index.html") := by
  constructor <;> intro h <;> simp [uploadPathOf, h]

/-- Witness for C4 at the pages `/a` (no trailing slash) and `/` (trailing
slash). -/
theorem c4_upload_path_witness :
    uploadPathOf (localePrefixOf none ++ pageA.permalink) =
      ((localePrefixOf none ++ pageA.permalink) ++ "/") ++ "index.html" ∧
    uploadPathOf (localePrefixOf none ++ pageHome.permalink) =
      (localePrefixOf none ++ pageHome.permalink) ++ "index.html" :=
  ⟨(c4_upload_path pageA none).2 (by decide),
   (c4_upload_path pageHome none).1 (by decide)⟩

/-- C6: the render context's URL is the locale-qualified permalink alone when
`site.hostname` is absent, and `https://` ++ hostname ++ permalink when it is
present; the URL computation is total, so a missing hostname cannot fail. -/
theorem c6_page_url (settings : Settings) (page : PageContract) (locale : Option String)
    (content : String) (ld : Option LData) (fav : Option String) :
    (settings.hostname = none →
      (mkHtmlPage settings page locale content ld fav).url =
        localePrefixOf locale ++ page.permalink) ∧
    (∀ h, settings.hostname = some h →
      (mkHtmlPage settings page locale content ld fav).url =
        "https://" ++ h ++ (localePrefixOf locale ++ page.permalink)) := by
  constructor
  · intro h; simp [mkHtmlPage, h]
  · intro h hh; simp [mkHtmlPage, hh]

/-- Witness for C6 with and without a hostname. -/
theorem c6_page_url_witness :
    (mkHtmlPage noHostSettings pageA none "c" none none).url =
      localePrefixOf none ++ pageA.permalink ∧
    (mkHtmlPage okSettings pageA none "c" none none).url =
      "https://" ++ "example.com" ++ (localePrefixOf none ++ pageA.permalink) :=
  ⟨(c6_page_url noHostSettings pageA none "c" none none).1 rfl,
   (c6_page_url okSettings pageA none "c" none none).2 "example.com" rfl⟩

/-- C7: the render context's open-graph type is `website` exactly when the
page's permalink is the home permalink `/`, and `article` otherwise. -/
theorem c7_open_graph (settings : Settings) (page : PageContract) (locale : Option String)
    (content : String) (ld : Option LData) (fav : Option String) :
    (page.permalink = "/" →
      (mkHtmlPage settings page locale content ld fav).openGraph.ogType = "website") ∧
    (page.permalink ≠ "/" →
      (mkHtmlPage settings page locale content ld fav).openGraph.ogType = "article") := by
  constructor <;> intro h <;> simp [mkHtmlPage, h]

/-- Witness for C7 at the home page and at `/a`. -/
theorem c7_open_graph_witness :
    (mkHtmlPage okSettings pageHome none "c" none none).openGraph.ogType = "website" ∧
    (mkHtmlPage okSettings pageA none "c" none none).openGraph.ogType = "article" :=
  ⟨(c7_open_graph okSettings pageHome none "c" none none).1 rfl,
   (c7_open_graph okSettings pageA none "c" none none).2 (by decide)⟩

/-- C9: the error wrapping a render failure is spelled
`"Unable to reneder page ..."` in the source — `render` is misspelled — so the
message is not the `"Unable to render page {title}: {cause}"` the spec states,
though it does name the page title and the cause. -/
theorem c9_render_error_message :
    (renderPage envRenderFail hp9).2 =
      Except.error "Unable to reneder page Home - MySite: boom" ∧
    "Unable to reneder page Home - MySite: boom" ≠
      "Unable to render page Home - MySite: boom" := by
  exact ⟨rfl, by decide⟩

/-- C10: under a non-default locale `X` the permalink registered into the
sitemap accumulator is `X ++ page.permalink` (no separator is put before the
locale code), while the permalink used for rendering and uploading is
`"/" ++ X ++ page.permalink`; the two differ by exactly the leading slash. -/
theorem c10_sitemap_vs_render_permalink (env : Env) (settings : Settings)
    (X : String) (page : PageContract) :
    sitemapPermalinkOf (some X) page = X ++ page.permalink ∧
    (runPages env settings (some X) [page]).sitemap = [X ++ page.permalink] ∧
    localePrefixOf (some X) ++ page.permalink = "/" ++ (X ++ page.permalink) ∧
    uploadPathOf (localePrefixOf (some X) ++ page.permalink) =
      uploadPathOf ("/" ++ (X ++ page.permalink)) := by
  have hassoc : localePrefixOf (some X) ++ page.permalink = "/" ++ (X ++ page.permalink) :=
    String.append_assoc "/" X page.permalink
  exact ⟨rfl, by simp [runPages, sitemapPermalinkOf], hassoc, by rw [hassoc]⟩

/-- C2 (amended): once the three calls made before the `try` block — the
locale service's `getLocales` and `getDefaultLocale` and the style compiler's
`getStyleSheet` — have succeeded, every further failure (settings fetch, page
search, content fetch, render, upload) is caught and logged inside `publish`,
which then fulfills normally. -/
theorem c2_publish_fulfills_after_pre (env : Env) (ls : List Locale) (d ss : String)
    (h1 : env.getLocales = .ok ls) (h2 : env.getDefaultLocale = .ok d)
    (h3 : env.getStyleSheet = .ok ss) :
    (publish env).outcome = .ok () := by
  simp only [publish, h1, h2, h3]
  exact publishTryBody_outcome env ls d

/-- Witness for C2 (amended) at `baseEnv`. -/
theorem c2_publish_fulfills_witness : (publish baseEnv).outcome = .ok () :=
  c2_publish_fulfills_after_pre baseEnv [] "en" "G" rfl rfl rfl

/-- C2 counterexample: a failing locale service makes `publish` reject to its
caller — `getLocales` is awaited before the `try`/`catch`, so the claim that
`publish` never throws for any collaborator failure is false. -/
theorem c2_cex_publish_rejects :
    (publish envLocalesDown).outcome = Except.error "locale service down" ∧
    (publish envLocalesDown).outcome ≠ Except.ok () := by
  refine ⟨rfl, ?_⟩
  intro h
  rw [show (publish envLocalesDown).outcome = Except.error "locale service down" from rfl] at h
  exact Except.noConfusion h

/-- C1: in a run over pages `/a` and `/b` where `/a`'s content fetch rejects,
the sibling `/b` still completes and uploads, and the failure is logged — but
`Promise.all` rejects at the first task failure, so `publish` never uploads
`sitemap.xml`: no upload event with that path occurs in the whole run.  This
contradicts the claim (and spec section 5), which requires the batch join to
wait for all outcomes and still serialize and upload the sitemap. -/
theorem c1_sitemap_not_uploaded_on_task_failure :
    Event.upload "/b/index.html" "<html>/b</html>" "text/html" ∈ (publish envTwoPages).events ∧
    Event.traceError "no content" "Page publisher" ∈ (publish envTwoPages).events ∧
    ((publish envTwoPages).events.all fun e =>
      match e with
      | .upload p _ _ => decide (p ≠ "sitemap.xml")
      | _ => true) = true ∧
    (publish envTwoPages).outcome = Except.ok () := by
  exact ⟨by decide, by decide, by decide, rfl⟩

/-- C3 counterexample: in the same failing run, the page `/a` whose
render-and-upload task failed (its content fetch rejected) is nevertheless in
the sitemap accumulator at the end of the run, while the search-index
accumulator holds only `/b` — so "a page whose render failed appears in
neither accumulator" is false. -/
theorem c3_cex_failed_page_in_sitemap :
    "/a" ∈ (publish envTwoPages).sitemap ∧
    (renderAndUpload envTwoPages okSettings pageA none).2 = Except.error "no content" ∧
    indexedPermalinks (publish envTwoPages).events = ["/b"] := by
  exact ⟨by decide, rfl, by decide⟩

/-- C3 (amended): the search-index accumulator receives exactly the pages
whose content fetch and render succeeded — a task appends its permalink to
the index precisely when `renderedHtml` is `ok` — while the sitemap
accumulator receives every scheduled page regardless of its task's outcome,
because `appendPermalink` runs at scheduling time. -/
theorem c3_accumulators (env : Env) (settings : Settings) (lc : Option String)
    (page : PageContract) (pages : List PageContract) :
    (indexedPermalinks (renderAndUpload env settings page lc).1 =
      match renderedHtml env settings page lc with
      | .ok _ => [localePrefixOf lc ++ page.permalink]
      | .error _ => []) ∧
    indexedPermalinks (runPages env settings lc pages).events =
      pages.flatMap (fun p => indexedPermalinks (renderAndUpload env settings p lc).1) ∧
    (runPages env settings lc pages).sitemap = pages.map (sitemapPermalinkOf lc) := by
  refine ⟨?_, runPages_indexed env settings lc pages, runPages_sitemap env settings lc pages⟩
  rcases hc : env.getPageContent page.key lc with e | content
  · simp [renderAndUpload, renderedHtml, hc, indexedPermalinks]
  · rcases h2 : (renderPage env (builtPage env settings page lc content)).2 with e | html
    · have hrh : renderedHtml env settings page lc = .error e := by
        simp [renderedHtml, hc, h2]
      simp only [renderAndUpload, hc, h2, hrh, indexedPermalinks_append,
        indexedPermalinks_parseLinkedData, indexedPermalinks_faviconStep, renderPage_events]
      simp [indexedPermalinks]
    · have hrh : renderedHtml env settings page lc = .ok html := by
        simp [renderedHtml, hc, h2]
      rcases hu : env.uploadBlob (uploadPathOf (localePrefixOf lc ++ page.permalink))
          html "text/html" with e2 | u <;>
      · simp only [renderAndUpload, hc, h2, hu, hrh, indexedPermalinks_append,
          indexedPermalinks_parseLinkedData, indexedPermalinks_faviconStep, renderPage_events]
        simp [indexedPermalinks]

/-- C5: with zero locales each found page is scheduled exactly once with no
locale code; with localization enabled each locale's pages are scheduled with
`localeCodeOf`, which maps the default locale to `none` (canonical content
lookup, no path segment, since `localePrefixOf none = ""`) and every other
locale `X` to `some X`, making the render permalink start with `"/" ++ X`. -/
theorem c5_locale_scheduling (env : Env) (settings : Settings) (d ss : String)
    (pages : List PageContract) (locales : List Locale)
    (pagesOf : Locale → List PageContract) :
    (env.getLocales = .ok [] → env.getDefaultLocale = .ok d →
     env.getStyleSheet = .ok ss → env.getSiteSettings = .ok settings →
     env.search "" none = .ok pages →
       (publish env).jobs = pages.map (fun p => (p, (none : Option String)))) ∧
    (env.getLocales = .ok locales → locales ≠ [] → env.getDefaultLocale = .ok d →
     env.getStyleSheet = .ok ss → env.getSiteSettings = .ok settings →
     (∀ l ∈ locales, env.search "" (localeCodeOf d l) = .ok (pagesOf l)) →
       (publish env).jobs =
         locales.flatMap (fun l => (pagesOf l).map (fun p => (p, localeCodeOf d l)))) ∧
    (∀ l : Locale, l.code = d → localeCodeOf d l = none) ∧
    (∀ l : Locale, l.code ≠ d → localeCodeOf d l = some l.code) ∧
    localePrefixOf none = "" ∧
    (∀ X : String, localePrefixOf (some X) = "/" ++ X) := by
  refine ⟨?_, ?_, ?_, ?_, rfl, fun X => rfl⟩
  · intro h1 h2 h3 h4 h5
    simp only [publish, h1, h2, h3, publishTryBody, h4]
    rw [finishBatch_jobs]
    simp [batchOf, h5, runPages_jobs]
  · intro h1 hne h2 h3 h4 h5
    simp only [publish, h1, h2, h3, publishTryBody, h4]
    rw [finishBatch_jobs]
    have hlen : locales.length > 0 := List.length_pos.mpr hne
    simp only [batchOf, if_pos hlen]
    exact runLocales_jobs env settings d pagesOf locales h5
  · intro l h; simp [localeCodeOf, h]
  · intro l h; simp [localeCodeOf, h]

/-- Witness for C5: the unlocalized run at `baseEnv` and the run at `envFr`
with locales `en` (default) and `fr`. -/
theorem c5_locale_scheduling_witness :
    (publish baseEnv).jobs = [(pageA, (none : Option String)), (pageB, none)] ∧
    (publish envFr).jobs =
      [(pageA, (none : Option String)), (pageB, none),
       (pageA, some "fr"), (pageB, some "fr")] := by
  constructor
  · have h := (c5_locale_scheduling baseEnv okSettings "en" "G" [pageA, pageB] []
      (fun _ => [])).1 rfl rfl rfl rfl rfl
    rw [h]; decide
  · have h := (c5_locale_scheduling envFr okSettings "en" "G" []
      [{ code := "en" }, { code := "fr" }] (fun _ => [pageA, pageB])).2.1
      rfl (by decide) rfl rfl rfl (fun l hl => rfl)
    rw [h]; decide

/-- C8: when a page's `jsonLd` is present but fails to parse, the failure is
logged to the console, the render context carries no linked data, and the
page's task is unaffected: given the remaining steps succeed, the task
fulfills and its trace contains the parse-failure log entry. -/
theorem c8_json_ld_failure_is_nonfatal (env : Env) (settings : Settings)
    (page : PageContract) (locale : Option String) (s : String)
    (hjs : page.jsonLd = some s) (hp : env.jsonParse s = none) :
    parseLinkedData env page =
      ([Event.consoleLog "Unable to parse page linked data: "], none) ∧
    (∀ content fav,
      (mkHtmlPage settings page locale content (parseLinkedData env page).2 fav).linkedData
        = none) ∧
    (∀ content html,
      env.getPageContent page.key locale = .ok content →
      (renderPage env (builtPage env settings page locale content)).2 = .ok html →
      env.uploadBlob (uploadPathOf (localePrefixOf locale ++ page.permalink))
          html "text/html" = .ok () →
      (renderAndUpload env settings page locale).2 = .ok () ∧
      Event.consoleLog "Unable to parse page linked data: "
        ∈ (renderAndUpload env settings page locale).1) := by
  have hld : parseLinkedData env page =
      ([Event.consoleLog "Unable to parse page linked data: "], none) := by
    simp [parseLinkedData, hjs, hp]
  refine ⟨hld, ?_, ?_⟩
  · intro content fav
    simp [mkHtmlPage, hld]
  · intro content html hc hr hu
    constructor
    · simp [renderAndUpload, hc, hr, hu]
    · simp [renderAndUpload, hc, hr, hu, hld]

/-- Witness for C8: `baseEnv`'s `JSON.parse` oracle rejects everything and
`page8` carries an unparsable `jsonLd`; its task still fulfills with the log
entry in its trace, and its render context has no linked data. -/
theorem c8_json_ld_witness :
    (renderAndUpload baseEnv okSettings page8 none).2 = Except.ok () ∧
    Event.consoleLog "Unable to parse page linked data: "
      ∈ (renderAndUpload baseEnv okSettings page8 none).1 ∧
    (builtPage baseEnv okSettings page8 none "content-p8").linkedData = none := by
  have h := c8_json_ld_failure_is_nonfatal baseEnv okSettings page8 none "not json" rfl rfl
  have h3 := h.2.2 "content-p8" "<html>/p8</html>" rfl rfl rfl
  exact ⟨h3.1, h3.2, h.2.1 "content-p8" (faviconStep baseEnv okSettings).2⟩

end PagePub
